import Mathlib

/-!
Verification of the function-resource reconciler of
`internal/providers/pluginfw/products/catalog/resource_function.go`
(terraform-provider-databricks).

The Go source is shallowly embedded: the remote API client
(`w.Functions.GetByName`, `Create`, `Update`, `DeleteByName`) is passed in
as a function argument; errors are the tagged variant `ApiError` whose
`missing` discriminant models `apierr.IsMissing`; Terraform diagnostics are
a list of `Diagnostic` records; the SDK polling combinator `retries.Poll`
is modelled as a fuel-indexed loop (fuel = number of fixed-interval polls
that fit in the 5-minute timeout).
-/

set_option autoImplicit false

/-- Function metadata as carried both by the API response struct
(`catalog.FunctionInfo`) and the Terraform state struct
(`catalog_tf.FunctionInfo`); the two Go structs share these field names and
the generic converters copy them one-to-one. -/
structure FunctionInfo where
  name : String
  catalog_name : String
  schema_name : String
  full_name : String
  owner : String
  comment : String
  routine_definition : String
  data_type : String
  deriving Repr, DecidableEq

/-- A remote API error, tagged with the discriminant that
`apierr.IsMissing` inspects. -/
inductive ApiError where
  | missing (msg : String)
  | other (msg : String)
  deriving Repr, DecidableEq

/-- The `err.Error()` message of an `ApiError`. -/
def ApiError.message : ApiError → String
  | .missing msg => msg
  | .other msg => msg

/-- Embeds `apierr.IsMissing`. -/
def apierrIsMissing : ApiError → Bool
  | .missing _ => true
  | .other _ => false

/-- One Terraform diagnostic entry (`diag.NewErrorDiagnostic(summary, detail)`). -/
structure Diagnostic where
  summary : String
  detail : String
  deriving Repr, DecidableEq

/-- Classification of one poll attempt, as produced by the closure passed
to `retries.Poll` (source lines 35-44): a successful `GetByName` is ready,
`retries.Continue` keeps polling, `retries.Halt` stops. -/
inductive PollClass where
  | ready (info : FunctionInfo)
  | continuePoll (msg : String)
  | haltPoll (msg : String)
  deriving Repr, DecidableEq

/-- The body of the poll closure in `waitForFunction` (source lines 36-43):
classify one `GetByName` outcome. -/
def pollFunctionOnce (get : Except ApiError FunctionInfo) (fullName : String) : PollClass :=
  match get with
  | .ok attempt => .ready attempt
  | .error e =>
    if apierrIsMissing e then
      .continuePoll ("function " ++ fullName ++ " is not yet available")
    else
      .haltPoll ("failed to get function: " ++ e.message)

/-- Result of the whole polling loop: the object, a halt error, or the
deadline-exceeded error. -/
inductive PollResult where
  | ok (info : FunctionInfo)
  | halted (msg : String)
  | timedOut (msg : String)
  deriving Repr, DecidableEq

/-- Modelled from the spec: the SDK combinator `retries.Poll` (not under
src/) per spec section 4.2 — a sequential loop at a fixed cadence with a
bounded wall-clock deadline: each attempt is classified ready (succeed),
continue (sleep one interval and retry) or halt (fail immediately);
exhausting the deadline without reaching ready fails with a timeout error
distinct from a halt error. `body i` is the classification of the i-th
attempt; `fuel` is the number of attempts that fit in the deadline. Returns
the result together with the number of attempts made. -/
def pollLoop (body : Nat → PollClass) : Nat → Nat → PollResult × Nat
  | _, 0 => (.timedOut "timed out waiting to reach Ready state", 0)
  | start, fuel + 1 =>
    match body start with
    | .ready info => (.ok info, 1)
    | .haltPoll msg => (.halted msg, 1)
    | .continuePoll _ =>
      let rest := pollLoop body (start + 1) fuel
      (rest.1, rest.2 + 1)

/-- The timeout constant of `waitForFunction` (source line 33:
`5 * time.Minute`), in seconds. -/
def timeoutSeconds : Nat := 5 * 60

/-- Number of fixed-interval polls of `intervalSec` seconds that fit in the
5-minute timeout. -/
def maxAttempts (intervalSec : Nat) : Nat := timeoutSeconds / intervalSec

/-- Embeds `waitForFunction` (source lines 32-52): poll `GetByName` on the
function full name; on success overwrite `funcInfo` with the final polled
result and report no diagnostics; on any poll error return the diagnostics
and leave `funcInfo` unchanged. `getByName i` is the remote outcome seen by
the i-th poll. -/
def waitForFunction (getByName : Nat → Except ApiError FunctionInfo) (fuel : Nat)
    (funcInfo : FunctionInfo) : FunctionInfo × List Diagnostic :=
  match (pollLoop (fun i => pollFunctionOnce (getByName i) funcInfo.full_name) 0 fuel).1 with
  | .ok result => (result, [])
  | .halted msg => (funcInfo, [⟨"failed to create function", msg⟩])
  | .timedOut msg => (funcInfo, [⟨"failed to create function", msg⟩])

/-- The all-empty function record (Go zero value). -/
def emptyFunctionInfo : FunctionInfo :=
  ⟨"", "", "", "", "", "", "", ""⟩

/-- Embeds `converters.GoSdkToTfSdkStruct` for `catalog.FunctionInfo` →
`catalog_tf.FunctionInfo`: the generic converter copies every field with a
matching name, and here the two structs carry the same fields. -/
def goSdkToTfSdk (info : FunctionInfo) : FunctionInfo :=
  { name := info.name
    catalog_name := info.catalog_name
    schema_name := info.schema_name
    full_name := info.full_name
    owner := info.owner
    comment := info.comment
    routine_definition := info.routine_definition
    data_type := info.data_type }

/-- The SDK request struct `catalog.CreateFunctionRequest` (fields of the
function to create, named as in the state struct). -/
structure CreateFunctionRequest where
  name : String
  catalog_name : String
  schema_name : String
  comment : String
  routine_definition : String
  data_type : String
  deriving Repr, DecidableEq

/-- Embeds `converters.TfSdkToGoSdkStruct` for `catalog_tf.FunctionInfo` →
`catalog.CreateFunctionRequest`: copy each field with a matching name. -/
def tfSdkToCreateRequest (plan : FunctionInfo) : CreateFunctionRequest :=
  { name := plan.name
    catalog_name := plan.catalog_name
    schema_name := plan.schema_name
    comment := plan.comment
    routine_definition := plan.routine_definition
    data_type := plan.data_type }

/-- Modelled from the spec: the SDK request struct `catalog.UpdateFunction`
(not under src/). Per spec sections 4.1 and 6 the mutation carries the
mutable fields; the identity is the addressing path parameter, kept on the
struct but outside the serialized payload body. For the functions API the
mutable field is the owner. -/
structure UpdateFunction where
  name : String
  owner : String
  deriving Repr, DecidableEq

/-- Modelled from the spec: the serialized body of an update mutation —
only the mutable fields of `UpdateFunction` are marshalled; the identity
path parameter is not part of the payload. -/
structure UpdatePayload where
  owner : String
  deriving Repr, DecidableEq

/-- The payload body the SDK serializes from an `UpdateFunction` request. -/
def UpdateFunction.payload (r : UpdateFunction) : UpdatePayload :=
  ⟨r.owner⟩

/-- Embeds `converters.TfSdkToGoSdkStruct` for `catalog_tf.FunctionInfo` →
`catalog.UpdateFunction`: copy each field with a matching name. -/
def tfSdkToUpdateFunction (plan : FunctionInfo) : UpdateFunction :=
  { name := plan.name
    owner := plan.owner }

namespace FunctionResource

/-- Embeds `FunctionResource.ImportState` (source lines 95-97): the import
passthrough writes the given identity string into the state attribute
`full_name`, leaving every other attribute unset. -/
def ImportState (id : String) : FunctionInfo :=
  { emptyFunctionInfo with full_name := id }

/-- The lookup key `FunctionResource.Read` passes to `GetByName` (source
line 190: `funcName := stateFunc.Name.ValueString()`). -/
def readLookupKey (stateFunc : FunctionInfo) : String :=
  stateFunc.name

/-- Embeds `FunctionResource.Read` (source lines 174-208): fetch by the
lookup key; on a missing error remove the resource from state with no
diagnostics; on any other error add a diagnostic and leave state as is; on
success convert the response into state. The first component is the stored
state after the call (`none` = removed). -/
def Read (getByName : String → Except ApiError FunctionInfo)
    (stateFunc : FunctionInfo) : Option FunctionInfo × List Diagnostic :=
  let funcName := readLookupKey stateFunc
  match getByName funcName with
  | .error e =>
    if apierrIsMissing e then (none, [])
    else (some stateFunc, [⟨"failed to get function", e.message⟩])
  | .ok funcInfo => (some (goSdkToTfSdk funcInfo), [])

/-- Embeds `FunctionResource.Delete` (source lines 210-228): delete by the
state's `full_name`; an error passing `apierr.IsMissing` is ignored, any
other error becomes a diagnostic. -/
def Delete (deleteByName : String → Option ApiError)
    (stateFunc : FunctionInfo) : List Diagnostic :=
  match deleteByName stateFunc.full_name with
  | none => []
  | some e =>
    if apierrIsMissing e then []
    else [⟨"failed to delete function", e.message⟩]

/-- Outcome of a Create invocation: diagnostics, the state written (if
any), how many times the creation API was called, and how many poll
attempts the stabilization wait made. -/
structure CreateOutcome where
  diags : List Diagnostic
  writtenState : Option FunctionInfo
  createCalls : Nat
  pollAttempts : Nat
  deriving Repr, DecidableEq

/-- Embeds `FunctionResource.Create` (source lines 99-137): convert the
plan to a creation request and call the API once; on API failure add a
diagnostic with the remote message and return before any polling; on
success run the stabilization wait on the returned object, then convert
and store the post-wait object. `getByName i` is the remote outcome the
i-th poll sees; `fuel` bounds the wait as in `pollLoop`. -/
def Create (createApi : CreateFunctionRequest → Except ApiError FunctionInfo)
    (getByName : Nat → Except ApiError FunctionInfo) (fuel : Nat)
    (planFunc : FunctionInfo) : CreateOutcome :=
  let createReq := tfSdkToCreateRequest planFunc
  match createApi createReq with
  | .error e => ⟨[⟨"failed to create function", e.message⟩], none, 1, 0⟩
  | .ok funcInfo =>
    let polled := pollLoop (fun i => pollFunctionOnce (getByName i) funcInfo.full_name) 0 fuel
    match polled.1 with
    | .ok result => ⟨[], some (goSdkToTfSdk result), 1, polled.2⟩
    | .halted msg => ⟨[⟨"failed to create function", msg⟩], none, 1, polled.2⟩
    | .timedOut msg => ⟨[⟨"failed to create function", msg⟩], none, 1, polled.2⟩

/-- Embeds `FunctionResource.Update` (source lines 139-172): convert the
plan into the mutation request, call the API, on failure add a diagnostic
and write no state, on success convert the response into state. -/
def Update (updateApi : UpdateFunction → Except ApiError FunctionInfo)
    (planFunc : FunctionInfo) : Option FunctionInfo × List Diagnostic :=
  let updateReq := tfSdkToUpdateFunction planFunc
  match updateApi updateReq with
  | .error e => (none, [⟨"failed to update function", e.message⟩])
  | .ok funcInfo => (some (goSdkToTfSdk funcInfo), [])

end FunctionResource

/-- Modelled from the spec: a remote object store keyed by qualified name
(spec section 3: a handle addresses at most one remote object), whose
delete reports the distinguished missing error when the handle has no
object. Returns the error outcome and the store after the call. -/
def remoteDeleteByName (objects : List String) (name : String) :
    Option ApiError × List String :=
  if name ∈ objects then (none, objects.erase name)
  else (some (ApiError.missing ("function " ++ name ++ " does not exist")), objects)

/-- The concrete function of the three-poll scenario. -/
def functionA : FunctionInfo :=
  { name := "functionA"
    catalog_name := "main"
    schema_name := "default"
    full_name := "main.default.functionA"
    owner := "someone"
    comment := ""
    routine_definition := "1"
    data_type := "INT" }

/-- Remote behaviour of the three-poll scenario: missing on polls 0 and 1,
found from poll 2 on. -/
def scenarioGetByName : Nat → Except ApiError FunctionInfo :=
  fun i =>
    if i < 2 then Except.error (ApiError.missing "function does not exist")
    else Except.ok functionA

/-- Remote used to evaluate Read at the failing input of the lookup-key
claim: the object exists under its qualified full name only. -/
def c1Remote : String → Except ApiError FunctionInfo :=
  fun key =>
    if key = "main.default.functionA" then Except.ok functionA
    else Except.error (ApiError.missing ("function " ++ key ++ " does not exist"))

/-- The poll loop never makes more attempts than its fuel allows. -/
theorem pollLoop_attempts_le (body : Nat → PollClass) :
    ∀ fuel start, (pollLoop body start fuel).2 ≤ fuel := by
  intro fuel
  induction fuel with
  | zero => intro start; simp [pollLoop]
  | succ n ih =>
    intro start
    cases h : body start with
    | ready info => simp [pollLoop, h]
    | haltPoll msg => simp [pollLoop, h]
    | continuePoll msg =>
      simp only [pollLoop, h]
      exact Nat.succ_le_succ (ih (start + 1))

/-- If every attempt is classified continue, the poll loop ends in the
deadline-exceeded result. -/
theorem pollLoop_all_continue (body : Nat → PollClass)
    (h : ∀ i, ∃ m, body i = PollClass.continuePoll m) :
    ∀ fuel start, (pollLoop body start fuel).1 =
      PollResult.timedOut "timed out waiting to reach Ready state" := by
  intro fuel
  induction fuel with
  | zero => intro start; simp [pollLoop]
  | succ n ih =>
    intro start
    obtain ⟨m, hm⟩ := h start
    simp only [pollLoop, hm]
    exact ih (start + 1)

/-- If the first j attempts are classified continue and attempt j is
classified halt, the poll loop returns the halt error after exactly j + 1
attempts. -/
theorem pollLoop_halt_at (body : Nat → PollClass) (m : String) :
    ∀ j fuel start, j < fuel →
      (∀ i, i < j → ∃ t, body (start + i) = PollClass.continuePoll t) →
      body (start + j) = PollClass.haltPoll m →
      pollLoop body start fuel = (PollResult.halted m, j + 1) := by
  intro j
  induction j with
  | zero =>
    intro fuel start hlt _ hhalt
    obtain ⟨n, rfl⟩ : ∃ n, fuel = n + 1 := ⟨fuel - 1, by omega⟩
    rw [Nat.add_zero] at hhalt
    simp [pollLoop, hhalt]
  | succ j ih =>
    intro fuel start hlt hcont hhalt
    obtain ⟨n, rfl⟩ : ∃ n, fuel = n + 1 := ⟨fuel - 1, by omega⟩
    obtain ⟨t, ht⟩ := hcont 0 (Nat.succ_pos j)
    rw [Nat.add_zero] at ht
    have h2 : pollLoop body (start + 1) n = (PollResult.halted m, j + 1) := by
      refine ih n (start + 1) (by omega) ?_ ?_
      · intro i hi
        have := hcont (i + 1) (by omega)
        rwa [show start + (i + 1) = start + 1 + i by omega] at this
      · rwa [show start + (j + 1) = start + 1 + j by omega] at hhalt
    simp [pollLoop, ht, h2]

/-- Claim C1, evaluated at the failing input: Read's lookup key is the
state's short `name` field, not the qualified `full_name` that Import
seeds; on a state with name `functionA` and full name
`main.default.functionA` the key is `functionA`, on a freshly imported
state the key is empty, and Read against a remote that holds the object
under its full name wrongly classifies it as missing and drops the
state. -/
theorem c1_read_key_is_short_name :
    FunctionResource.readLookupKey
        { emptyFunctionInfo with name := "functionA", full_name := "main.default.functionA" } =
      "functionA" ∧
    FunctionResource.readLookupKey (FunctionResource.ImportState "main.default.functionA") =
      "" ∧
    FunctionResource.Read c1Remote
        { emptyFunctionInfo with name := "functionA", full_name := "main.default.functionA" } =
      (none, []) :=
  ⟨rfl, rfl, by decide⟩

/-- Claim C2: each poll attempt is classified into exactly one of three
states — a successful GetByName is Ready carrying the object, an error
passing the missing test is NotYetAvailable (continue polling), and any
other error is Fatal (halt). -/
theorem c2_poll_classification (fullName : String) :
    (∀ info, pollFunctionOnce (Except.ok info) fullName = PollClass.ready info) ∧
    (∀ m, pollFunctionOnce (Except.error (ApiError.missing m)) fullName =
      PollClass.continuePoll ("function " ++ fullName ++ " is not yet available")) ∧
    (∀ m, pollFunctionOnce (Except.error (ApiError.other m)) fullName =
      PollClass.haltPoll ("failed to get function: " ++ m)) :=
  ⟨fun _ => rfl, fun _ => rfl, fun _ => rfl⟩

/-- Claim C3: with a fixed poll interval, the wait makes at most as many
attempts as fit in the 5-minute timeout, so the elapsed polling time is
bounded by the timeout in every case; when every poll reports
NotYetAvailable the loop ends in the deadline-exceeded result, which is a
different constructor from a Fatal halt error. -/
theorem c3_wait_bounded_and_timeout (body : Nat → PollClass) (intervalSec : Nat)
    (h : 0 < intervalSec) :
    (pollLoop body 0 (maxAttempts intervalSec)).2 * intervalSec ≤ timeoutSeconds ∧
    ((∀ i, ∃ m, body i = PollClass.continuePoll m) →
      (pollLoop body 0 (maxAttempts intervalSec)).1 =
        PollResult.timedOut "timed out waiting to reach Ready state") ∧
    (∀ m m', PollResult.timedOut m ≠ PollResult.halted m') := by
  refine ⟨?_, ?_, ?_⟩
  · calc (pollLoop body 0 (maxAttempts intervalSec)).2 * intervalSec
        ≤ maxAttempts intervalSec * intervalSec :=
          Nat.mul_le_mul_right _ (pollLoop_attempts_le body _ 0)
      _ ≤ timeoutSeconds := Nat.div_mul_le_self _ _
  · intro hall
    exact pollLoop_all_continue body hall _ 0
  · intro m m' hmm
    cases hmm

theorem c3_witness :
    (pollLoop (fun _ => PollClass.continuePoll "waiting") 0 (maxAttempts 10)).2 * 10 ≤
      timeoutSeconds :=
  (c3_wait_bounded_and_timeout (fun _ => PollClass.continuePoll "waiting") 10
    (by decide)).1

/-- Claim C4: when Read's remote fetch fails with a missing error, the
resource is removed from state and no diagnostic is reported; for any
other fetch error a read diagnostic is reported and the stored state is
left unmodified. -/
theorem c4_read_missing_vs_other (getByName : String → Except ApiError FunctionInfo)
    (stateFunc : FunctionInfo) :
    (∀ m, getByName (FunctionResource.readLookupKey stateFunc) =
        Except.error (ApiError.missing m) →
      FunctionResource.Read getByName stateFunc = (none, [])) ∧
    (∀ m, getByName (FunctionResource.readLookupKey stateFunc) =
        Except.error (ApiError.other m) →
      FunctionResource.Read getByName stateFunc =
        (some stateFunc, [⟨"failed to get function", m⟩])) := by
  constructor <;> intro m hm <;>
    simp [FunctionResource.Read, hm, apierrIsMissing, ApiError.message]

theorem c4_witness :
    FunctionResource.Read (fun _ => Except.error (ApiError.missing "gone")) functionA =
      (none, []) :=
  (c4_read_missing_vs_other (fun _ => Except.error (ApiError.missing "gone")) functionA).1
    "gone" rfl

/-- Claim C5: Delete is idempotent — a deletion call failing with a
missing error yields no diagnostics, any other deletion error yields the
delete diagnostic, and against a remote store deleting the same handle
twice never fails the second time. -/
theorem c5_delete_idempotent (stateFunc : FunctionInfo) (objects : List String) :
    (∀ deleteByName m,
      deleteByName stateFunc.full_name = some (ApiError.missing m) →
        FunctionResource.Delete deleteByName stateFunc = []) ∧
    (∀ deleteByName m,
      deleteByName stateFunc.full_name = some (ApiError.other m) →
        FunctionResource.Delete deleteByName stateFunc =
          [⟨"failed to delete function", m⟩]) ∧
    FunctionResource.Delete
      (fun n => (remoteDeleteByName (remoteDeleteByName objects n).2 n).1) stateFunc =
      [] := by
  refine ⟨?_, ?_, ?_⟩
  · intro del m hm
    simp [FunctionResource.Delete, hm, apierrIsMissing]
  · intro del m hm
    simp [FunctionResource.Delete, hm, apierrIsMissing, ApiError.message]
  · by_cases h1 : stateFunc.full_name ∈ objects
    · by_cases h2 : stateFunc.full_name ∈ objects.erase stateFunc.full_name
      · simp [FunctionResource.Delete, remoteDeleteByName, h1, h2]
      · simp [FunctionResource.Delete, remoteDeleteByName, h1, h2, apierrIsMissing]
    · simp [FunctionResource.Delete, remoteDeleteByName, h1, apierrIsMissing]

theorem c5_witness :
    FunctionResource.Delete (fun _ => some (ApiError.missing "already gone")) functionA =
      [] :=
  (c5_delete_idempotent functionA []).1
    (fun _ => some (ApiError.missing "already gone")) "already gone" rfl

/-- Claim C6: when the creation API call fails, Create reports exactly one
diagnostic carrying the remote error message verbatim, calls the creation
API exactly once (no retry), performs zero poll attempts (no stabilization
wait), and writes no state. -/
theorem c6_create_api_failure
    (createApi : CreateFunctionRequest → Except ApiError FunctionInfo)
    (getByName : Nat → Except ApiError FunctionInfo) (fuel : Nat)
    (planFunc : FunctionInfo) (e : ApiError)
    (h : createApi (tfSdkToCreateRequest planFunc) = Except.error e) :
    FunctionResource.Create createApi getByName fuel planFunc =
      ⟨[⟨"failed to create function", e.message⟩], none, 1, 0⟩ := by
  simp [FunctionResource.Create, h]

theorem c6_witness :
    FunctionResource.Create (fun _ => Except.error (ApiError.other "PERMISSION_DENIED"))
      scenarioGetByName 30 functionA =
      ⟨[⟨"failed to create function", "PERMISSION_DENIED"⟩], none, 1, 0⟩ :=
  c6_create_api_failure _ scenarioGetByName 30 functionA
    (ApiError.other "PERMISSION_DENIED") rfl

/-- Claim C7: once a poll attempt is classified Fatal, the loop makes no
further poll attempts — with the first j attempts classified continue and
attempt j classified halt, the loop returns the halt error after exactly
j + 1 attempts. -/
theorem c7_fatal_halts_immediately (body : Nat → PollClass) (fuel j : Nat) (m : String)
    (hj : j < fuel)
    (hcont : ∀ i, i < j → ∃ t, body i = PollClass.continuePoll t)
    (hhalt : body j = PollClass.haltPoll m) :
    pollLoop body 0 fuel = (PollResult.halted m, j + 1) := by
  have h0 : ∀ i, i < j → ∃ t, body (0 + i) = PollClass.continuePoll t := by
    simpa using hcont
  have h1 : body (0 + j) = PollClass.haltPoll m := by simpa using hhalt
  exact pollLoop_halt_at body m j fuel 0 hj h0 h1

theorem c7_witness :
    pollLoop
      (fun i => if i = 0 then PollClass.continuePoll "w" else PollClass.haltPoll "h")
      0 5 = (PollResult.halted "h", 2) :=
  c7_fatal_halts_immediately _ 5 1 "h" (by decide)
    (fun i hi => ⟨"w", by simp [Nat.lt_one_iff.mp hi]⟩) (by decide)

/-- Claim C8: in the scenario where the remote reports missing on the
first two polls and returns the object on the third, the wait succeeds
with the object after exactly 3 poll attempts, and the elapsed polling
time stays within the 5-minute timeout. -/
theorem c8_three_polls (intervalSec : Nat) (h1 : 0 < intervalSec)
    (h2 : 3 ≤ maxAttempts intervalSec) :
    pollLoop (fun i => pollFunctionOnce (scenarioGetByName i) functionA.full_name) 0
        (maxAttempts intervalSec) =
      (PollResult.ok functionA, 3) ∧
    3 * intervalSec ≤ timeoutSeconds := by
  constructor
  · obtain ⟨n, hn⟩ : ∃ n, maxAttempts intervalSec = n + 3 :=
      ⟨maxAttempts intervalSec - 3, by omega⟩
    rw [hn]
    simp [pollLoop, scenarioGetByName, pollFunctionOnce, apierrIsMissing]
  · exact (Nat.le_div_iff_mul_le h1).mp h2

theorem c8_witness :
    pollLoop (fun i => pollFunctionOnce (scenarioGetByName i) functionA.full_name) 0
      (maxAttempts 10) = (PollResult.ok functionA, 3) :=
  (c8_three_polls 10 (by decide) (by decide)).1

/-- Claim C9: the mutation request Update sends is built from the mutable
fields of the desired state — its payload body is exactly the owner field —
and the identity fields are not part of the payload: two desired states
agreeing on the mutable fields produce the same payload whatever their
identity fields. -/
theorem c9_update_payload (p q : FunctionInfo) (h : p.owner = q.owner) :
    (tfSdkToUpdateFunction p).payload = ⟨p.owner⟩ ∧
    (tfSdkToUpdateFunction p).payload = (tfSdkToUpdateFunction q).payload := by
  constructor
  · rfl
  · simp [tfSdkToUpdateFunction, UpdateFunction.payload, h]

theorem c9_witness :
    (tfSdkToUpdateFunction functionA).payload =
      (tfSdkToUpdateFunction { emptyFunctionInfo with owner := "someone" }).payload :=
  (c9_update_payload functionA { emptyFunctionInfo with owner := "someone" } rfl).2

/-- Claim C10: the stabilization wait mutates its function record only on
success — when the poll loop ends with the object, the record is replaced
by that final polled result and no diagnostics are reported; on a halt or
timeout outcome the record is returned unchanged together with the error
diagnostic. -/
theorem c10_wait_frame (getByName : Nat → Except ApiError FunctionInfo) (fuel : Nat)
    (funcInfo : FunctionInfo) :
    (∀ result,
      (pollLoop (fun i => pollFunctionOnce (getByName i) funcInfo.full_name) 0 fuel).1 =
          PollResult.ok result →
        waitForFunction getByName fuel funcInfo = (result, [])) ∧
    (∀ m,
      (pollLoop (fun i => pollFunctionOnce (getByName i) funcInfo.full_name) 0 fuel).1 =
          PollResult.halted m →
        waitForFunction getByName fuel funcInfo =
          (funcInfo, [⟨"failed to create function", m⟩])) ∧
    (∀ m,
      (pollLoop (fun i => pollFunctionOnce (getByName i) funcInfo.full_name) 0 fuel).1 =
          PollResult.timedOut m →
        waitForFunction getByName fuel funcInfo =
          (funcInfo, [⟨"failed to create function", m⟩])) := by
  refine ⟨?_, ?_, ?_⟩ <;> intro x hx <;> simp [waitForFunction, hx]

theorem c10_witness :
    waitForFunction (fun _ => Except.ok functionA) 1 emptyFunctionInfo = (functionA, []) :=
  (c10_wait_frame (fun _ => Except.ok functionA) 1 emptyFunctionInfo).1 functionA
    (by decide)
